import Mathlib

/-!
Shallow embedding of the vm-operator core (operation controller + vSphere VM
provider) used to check the natural-language specification against the code.

The Go source mutates shared state and calls external services (the Kubernetes
API and vCenter).  Here every external call's outcome is supplied by an
explicit environment/fault record, the Kubernetes cluster content is threaded
as an explicit value, and every externally visible call is recorded in an
effect trace.  Pure control flow, branch conditions and in-memory mutations
are translated directly from the source files:
  - pkg/vmprovider/providers/vsphere/vmprovider_vm.go
  - controllers/operation/operation_controller.go
  - the vcenter resource-pool helpers (GetChildResourcePool et al.)
-/

namespace VMOp

/-! ## Data model (api/v1alpha1 subset used by the modelled code) -/

structure NetworkInterface where
  networkName : String
  networkType : String
deriving Repr, DecidableEq

structure VirtualMachineSpec where
  className : String
  imageName : String
  powerState : String
  storageClass : String
  networkInterfaces : List NetworkInterface
deriving Repr, DecidableEq

/-- Status of a VirtualMachine: phase, unique infrastructure identifier and
the set of condition types currently marked true. -/
structure VirtualMachineStatus where
  phase : String
  uniqueID : String
  condsTrue : List String
deriving Repr, DecidableEq

/-- String key/value maps (Go `map[string]string`) are modelled as
association lists; an `Option` wrapping at use sites distinguishes a nil map
from an empty one.  `setKV` overwrites an existing key in place and appends
a missing one. -/
def setKV (m : List (String × String)) (k v : String) : List (String × String) :=
  if m.any (fun p => p.1 == k) then
    m.map (fun p => if p.1 == k then (k, v) else p)
  else
    m ++ [(k, v)]

def lookupKV (m : List (String × String)) (k : String) : Option String :=
  (m.find? (fun p => p.1 == k)).map Prod.snd

/-- vmopv1.VirtualMachine.  The Go `Annotations` and `Labels` maps are the
`anns` and `labels` fields (nil map = `none`). -/
structure VirtualMachine where
  name : String
  ns : String
  anns : Option (List (String × String))
  labels : Option (List (String × String))
  spec : VirtualMachineSpec
  status : VirtualMachineStatus
deriving Repr, DecidableEq

/-- Write one key of the VM's Go `Annotations` map, lazily creating the map
when it is nil (the `if vm.Annotations == nil` idiom in the source). -/
def VirtualMachine.setAnn (vm : VirtualMachine) (k v : String) : VirtualMachine :=
  { vm with anns := some (setKV (vm.anns.getD []) k v) }

def VirtualMachine.setLabel (vm : VirtualMachine) (k v : String) : VirtualMachine :=
  { vm with labels := some (setKV (vm.labels.getD []) k v) }

def VirtualMachine.getAnn (vm : VirtualMachine) (k : String) : Option String :=
  lookupKV (vm.anns.getD []) k

/-- vmopv1.Operation types. -/
inductive OperationType
  | Import
  | Export
  | ColdMigration
  | LiveMigration
deriving Repr, DecidableEq

/-- The Kubernetes-level RelocateSpec: plain destination names, not resolved
identifiers (api/v1alpha1/operation_types.go). -/
structure RelocateSpec where
  hostIp : String
  resourcePoolName : String
  datastoreName : String
  vmNetworkName : String
  folderName : String
deriving Repr, DecidableEq

structure OperationSpec where
  operationType : OperationType
  entityName : String
  vmSpec : VirtualMachineSpec
  relocateSpec : RelocateSpec
deriving Repr, DecidableEq

structure Operation where
  name : String
  ns : String
  spec : OperationSpec
deriving Repr, DecidableEq

/-! ## Admission gate (vmprovider_vm.go: vmCreateConcurrentAllowed)

The Go code keeps a process-wide `concurrentCreateCount int` guarded by
`createCountLock`.  The lock is held only for the test-and-increment /
decrement, so each acquire / release is one atomic step on the counter; the
embedding makes the counter an explicit `Int` argument. -/

/-- vmCreateConcurrentAllowed: if the counter is at or above the limit,
return not-allowed and leave the counter alone; otherwise increment it.
The second component is the counter after the call. -/
def vmCreateConcurrentAllowed (maxDeployThreads count : Int) : Bool × Int :=
  if count ≥ maxDeployThreads then (false, count)
  else (true, count + 1)

/-- The `decrementFn` closure returned on a successful acquire. -/
def createDeferFn (count : Int) : Int :=
  count - 1

/-- One atomic operation on the shared counter. -/
inductive GateOp
  | acquire
  | release
deriving Repr, DecidableEq

def gateStep (maxDeployThreads count : Int) : GateOp → Int
  | .acquire => (vmCreateConcurrentAllowed maxDeployThreads count).2
  | .release => createDeferFn count

/-- Run a sequence of interleaved acquire/release steps on the counter. -/
def gateRun (maxDeployThreads count : Int) : List GateOp → Int
  | [] => count
  | op :: ops => gateRun maxDeployThreads (gateStep maxDeployThreads count op) ops

/-! ## Operation controller world (controllers/operation/operation_controller.go)

The controller talks to the local Kubernetes API (`r.Get`, `r.Create`,
`r.Update`, `r.Delete`) and to external services (the destination cluster,
the vSphere provider).  The local cluster content is an explicit `Cluster`
value; call failures of the external services and transient API failures are
injected through a `Faults` record; every mutating or remote call is recorded
in an effect trace in program order. -/

inductive Err
  | k8sNotFound
  | k8sTransient
  | k8sAlreadyExists
  | updateFailed
  | deleteFailed
  | createFailed
  | connFailed
  | relocateFailed
  | importFailed
  | vcClientFailed
  | getVMFailed
  | findFailed (what : String)
  | devicesFailed
  | noNetworkCard
  | taskFailed (what : String)
  | childRPNotFound (child parent : String)
  | childFolderNotFound (child parent : String)
  | validation (msg : String)
  | placementFailed
  | placementMissingHost
  | prereqFailed
  | policyBeingDeleted
  | clusterModulesNotReady
  | pvcsNotBound
  | maxDeployThreadsMissing
deriving Repr, DecidableEq

inductive Effect
  | updateVMCall (name : String)
  | deleteVMCall (name : String)
  | createVMCall (name : String)
  | connCheck
  | relocateCall (name : String)
  | importOpCreate (entity : String)
deriving Repr, DecidableEq

/-- The local cluster: the set of VirtualMachine objects the controller's
client can see. -/
structure Cluster where
  vms : List VirtualMachine
deriving Repr, DecidableEq

def findVM (c : Cluster) (ns name : String) : Option VirtualMachine :=
  c.vms.find? (fun vm => vm.ns == ns && vm.name == name)

/-- Replace the stored copy of a VM (k8s Update semantics: succeeds only via
`k8s` paths below; the stored object with the same key is replaced). -/
def updateVMIn (c : Cluster) (vm' : VirtualMachine) : Cluster :=
  ⟨c.vms.map (fun vm => if vm.ns == vm'.ns && vm.name == vm'.name then vm' else vm)⟩

def deleteVMIn (c : Cluster) (ns name : String) : Cluster :=
  ⟨c.vms.filter (fun vm => !(vm.ns == ns && vm.name == name))⟩

/-- Injected failures for the external calls made by one reconciliation. -/
structure Faults where
  /-- injected: `r.Get` on the VM returns a transient (non-not-found) error. -/
  vmGetTransient : Bool
  /-- injected: `r.Update` on the VM fails. -/
  updateFails : Bool
  /-- injected: `r.Delete` on the VM fails. -/
  deleteFails : Bool
  /-- injected: `r.Create` of a VM fails (beyond AlreadyExists, which the cluster
  content decides). -/
  createFails : Bool
  /-- building the destination client or querying its server version fails. -/
  connFails : Bool
  /-- the provider relocate call fails. -/
  relocateFails : Bool
  /-- creating the Import operation/plan on the destination cluster fails. -/
  importFails : Bool
deriving Repr, DecidableEq

/-- Model of `r.Get` of a VirtualMachine: a transient fault or the not-found error
are both just a non-nil error to the Go caller. -/
def k8sGetVM (c : Cluster) (f : Faults) (ns name : String) :
    Except Err VirtualMachine :=
  if f.vmGetTransient then .error .k8sTransient
  else
    match findVM c ns name with
    | some vm => .ok vm
    | none => .error .k8sNotFound

/-- Model of `r.Create` of a VirtualMachine (the API server rejects an existing key). -/
def k8sCreateVM (c : Cluster) (f : Faults) (vm : VirtualMachine) :
    Except Err Cluster :=
  if f.createFails then .error .createFailed
  else if (findVM c vm.ns vm.name).isSome then .error .k8sAlreadyExists
  else .ok ⟨c.vms ++ [vm]⟩

/-- The export annotation key (vmopv1.ExportAnn; declared in the upstream
api package, value opaque to the modelled logic). -/
def exportAnnKey : String := "vmoperator.vmware.com/export"

/-- A VM object freshly built by reconcileImportWithVMSpec: ObjectMeta
name/namespace plus the embedded spec, everything else zero-valued. -/
def newVMFromSpec (name ns : String) (spec : VirtualMachineSpec) :
    VirtualMachine :=
  { name := name
    ns := ns
    anns := none
    labels := none
    spec := spec
    status := { phase := "", uniqueID := "", condsTrue := [] } }

/-- reconcileImportWithVMSpec: look up the named VM; ANY lookup error takes
the create path (the source matches on `err != nil`, not on not-found). -/
def reconcileImportWithVMSpec (c : Cluster) (f : Faults) (op : Operation) :
    Except Err Unit × Cluster × List Effect :=
  match k8sGetVM c f op.ns op.spec.entityName with
  | .error _ =>
    let vm := newVMFromSpec op.spec.entityName op.ns op.spec.vmSpec
    match k8sCreateVM c f vm with
    | .error e => (.error e, c, [.createVMCall vm.name])
    | .ok c' => (.ok (), c', [.createVMCall vm.name])
  | .ok _ => (.ok (), c, [])

/-- exportVM: find the VM, write the export annotation (lazily creating the
map), persist it with Update, then Delete the VM.  A failed Update leaves
the stored object untouched; a failed Delete leaves the annotated object in
place. -/
def exportVM (c : Cluster) (f : Faults) (op : Operation) :
    Except Err Unit × Cluster × List Effect :=
  match k8sGetVM c f op.ns op.spec.entityName with
  | .error e => (.error e, c, [])
  | .ok vm =>
    let vm' := vm.setAnn exportAnnKey "true"
    if f.updateFails then
      (.error .updateFailed, c, [.updateVMCall vm'.name])
    else
      let c1 := updateVMIn c vm'
      if f.deleteFails then
        (.error .deleteFailed, c1, [.updateVMCall vm'.name, .deleteVMCall vm'.name])
      else
        (.ok (), deleteVMIn c1 vm'.ns vm'.name,
          [.updateVMCall vm'.name, .deleteVMCall vm'.name])

/-- testTargetClusterConnection: build a client to the destination from the
stored credential and query its server version; all of it is external, so a
single fault decides the outcome. -/
def testTargetClusterConnection (f : Faults) : Except Err Unit × List Effect :=
  if f.connFails then (.error .connFailed, [.connCheck])
  else (.ok (), [.connCheck])

/-- importVM: create the Import operation and plan on the destination
cluster (remote effects only; the local cluster is untouched). -/
def importVMRemote (f : Faults) (op : Operation) : Except Err Unit × List Effect :=
  if f.importFails then (.error .importFailed, [.importOpCreate op.spec.entityName])
  else (.ok (), [.importOpCreate op.spec.entityName])

/-- reconcileColdMigration: (1) find the source VM, (2) check destination
connectivity, (3) export (annotate then delete), (4) provider relocate,
(5) destination-side import.  Each failure returns immediately. -/
def reconcileColdMigration (c : Cluster) (f : Faults) (op : Operation) :
    Except Err Unit × Cluster × List Effect :=
  match k8sGetVM c f op.ns op.spec.entityName with
  | .error e => (.error e, c, [])
  | .ok _vm =>
    match testTargetClusterConnection f with
    | (.error e, tr0) => (.error e, c, tr0)
    | (.ok _, tr0) =>
      match exportVM c f op with
      | (.error e, c1, tr1) => (.error e, c1, tr0 ++ tr1)
      | (.ok _, c1, tr1) =>
        if f.relocateFails then
          (.error .relocateFailed, c1,
            tr0 ++ tr1 ++ [.relocateCall op.spec.entityName])
        else
          match importVMRemote f op with
          | (.error e, tr2) =>
            (.error e, c1, tr0 ++ tr1 ++ [.relocateCall op.spec.entityName] ++ tr2)
          | (.ok _, tr2) =>
            (.ok (), c1, tr0 ++ tr1 ++ [.relocateCall op.spec.entityName] ++ tr2)

/-! ## vSphere provider world (vmprovider_vm.go + vcenter helpers)

Every vCenter round trip (finder lookups, device fetch, tasks) is an
external call whose outcome the environment supplies; the calls made are
recorded as `VcEffect`s in program order. -/

inductive VirtualDevice
  | vmxnet3 (key : Int) (backingDeviceName : String)
  | otherDevice (key : Int)
deriving Repr, DecidableEq

inductive VirtualDeviceConfigSpecOperation
  | add
  | edit
  | remove
deriving Repr, DecidableEq

structure VirtualDeviceConfigSpec where
  operation : VirtualDeviceConfigSpecOperation
  device : VirtualDevice
deriving Repr, DecidableEq

/-- types.VirtualMachineRelocateSpec (fields used by the source). -/
structure VirtualMachineRelocateSpec where
  folder : Option String
  datastore : Option String
  pool : Option String
  host : Option String
  deviceChange : List VirtualDeviceConfigSpec
deriving Repr, DecidableEq

inductive VcEffect
  | findHost (name : String)
  | findPool (name : String)
  | findDatastore (name : String)
  | findNetwork (name : String)
  | getDevices
  | findFolder (name : String)
  | relocateTask (spec : VirtualMachineRelocateSpec)
  | nsFolderAndRPFetch (zone ns : String)
  | nsFolderFetch (ns : String)
  | childRPFindCall (parentMoID child : String)
  | childRPCreateCall (parentMoID child : String)
  | childFolderFindCall (parentMoID child : String)
  | createVMTask
  | clusterFetch
  | reconfigureTask
deriving Repr, DecidableEq

/-- First vmxnet3 device of a device list. -/
def firstVmxnet3 : List VirtualDevice → Option VirtualDevice
  | [] => none
  | d :: rest =>
    match d with
    | .vmxnet3 _ _ => some d
    | .otherDevice _ => firstVmxnet3 rest

/-- GetNetworkFromVM: fetch the VM's devices and return the first vmxnet3
NIC; error when the device fetch fails or no NIC exists. -/
def GetNetworkFromVM (deviceList : Except Err (List VirtualDevice)) :
    Except Err VirtualDevice :=
  match deviceList with
  | .error _ => .error .devicesFailed
  | .ok vdl =>
    match firstVmxnet3 vdl with
    | some nic => .ok nic
    | none => .error .noNetworkCard

/-- The destination backing device name the source hardcodes for the NIC
edit (`dstVMNetworkName := "primary-vds-2"` in RelocateVirtualMachine). -/
def dstVMNetworkName : String := "primary-vds-2"

/-- Overwrite a device's backing with a plain device-name backing. -/
def setBackingDeviceName (d : VirtualDevice) (nm : String) : VirtualDevice :=
  match d with
  | .vmxnet3 k _ => .vmxnet3 k nm
  | .otherDevice k => .otherDevice k

instance {ε α : Type} [DecidableEq ε] [DecidableEq α] :
    DecidableEq (Except ε α) := fun a b =>
  match a, b with
  | .error e, .error e' =>
    if h : e = e' then isTrue (by rw [h])
    else isFalse (by intro hc; cases hc; exact h rfl)
  | .error _, .ok _ => isFalse (by intro hc; cases hc)
  | .ok _, .error _ => isFalse (by intro hc; cases hc)
  | .ok x, .ok y =>
    if h : x = y then isTrue (by rw [h])
    else isFalse (by intro hc; cases hc; exact h rfl)

/-- Environment for one provider RelocateVirtualMachine call. -/
structure RelocEnv where
  vcClientOK : Bool
  /-- getVM: `ok none` means the infrastructure instance does not exist. -/
  vmLookup : Except Err (Option String)
  hostFind : Except Err String
  poolFind : Except Err String
  dsFind : Except Err String
  networkFind : Except Err String
  deviceList : Except Err (List VirtualDevice)
  folderFind : Except Err String
  relocateTaskOutcome : Except Err Unit
deriving Repr, DecidableEq

/-- Sequencing helper: perform one environment-supplied call, record its
effect, abort on error. -/
def stepE (res : Except Err α) (eff : VcEffect) (tr : List VcEffect)
    (k : α → List VcEffect → Except Err β × List VcEffect) :
    Except Err β × List VcEffect :=
  match res with
  | .error e => (.error e, tr ++ [eff])
  | .ok a => k a (tr ++ [eff])

/-- Provider RelocateVirtualMachine: resolve destination host, pool,
datastore, network and folder by name; take the source VM's first NIC and
rewrite its backing to the hardcoded `dstVMNetworkName` (the resolved
destination network moref is logged but unused in the source); submit one
relocate spec carrying exactly that one device edit. -/
def RelocateVirtualMachine (env : RelocEnv) (srs : RelocateSpec) :
    Except Err Unit × List VcEffect :=
  if env.vcClientOK = false then (.error .vcClientFailed, [])
  else
    match env.vmLookup with
    | .error e => (.error e, [])
    | .ok none => (.ok (), [])
    | .ok (some _vcVM) =>
      stepE env.hostFind (.findHost srs.hostIp) [] fun dstHostMoRef tr =>
      stepE env.poolFind (.findPool srs.resourcePoolName) tr fun dstPoolMoRef tr =>
      stepE env.dsFind (.findDatastore srs.datastoreName) tr fun dstDsMoRef tr =>
      stepE env.networkFind (.findNetwork srs.vmNetworkName) tr fun _dstNetworkMoRef tr =>
      stepE (GetNetworkFromVM env.deviceList) .getDevices tr fun srcVMNetwork tr =>
        let deviceConfigSpec : VirtualDeviceConfigSpec :=
          { operation := .edit
            device := setBackingDeviceName srcVMNetwork dstVMNetworkName }
        stepE env.folderFind (.findFolder srs.folderName) tr fun dstFolderMoRef tr =>
          let relocateSpec : VirtualMachineRelocateSpec :=
            { folder := some dstFolderMoRef
              datastore := some dstDsMoRef
              pool := some dstPoolMoRef
              host := some dstHostMoRef
              deviceChange := [deviceConfigSpec] }
          match env.relocateTaskOutcome with
          | .error e => (.error e, tr ++ [.relocateTask relocateSpec])
          | .ok _ => (.ok (), tr ++ [.relocateTask relocateSpec])

/-! ### The create pipeline (createVirtualMachine and its sub-steps) -/

/-- Phase constants (status phase values are these literal strings). -/
def CreatingPhase : String := "Creating"

def CreatedPhase : String := "Created"

def prereqReadyCondType : String := "VirtualMachinePrereqReady"

def instStorageSelectedNodeMOIDKey : String :=
  "vmoperator.vmware.com/instance-storage-selected-node-moid"

def instStorageSelectedNodeKey : String :=
  "vmoperator.vmware.com/instance-storage-selected-node"

def instStoragePVCsBoundKey : String :=
  "vmoperator.vmware.com/instance-storage-pvcs-bound"

def zoneLabelKey : String := "topology.kubernetes.io/zone"

/-- conditions.MarkTrue on the VM status. -/
def markCondTrue (vm : VirtualMachine) (cond : String) : VirtualMachine :=
  if vm.status.condsTrue.contains cond then vm
  else
    { vm with status :=
      { vm.status with condsTrue := vm.status.condsTrue ++ [cond] } }

structure ResourcePolicyInfo where
  beingDeleted : Bool
  folderChildName : String
  rpChildName : String
deriving Repr, DecidableEq

/-- session.VMCreateArgs (the fields the modelled code reads or writes). -/
structure VMCreateArgs where
  resourcePoolMoID : String
  folderMoID : String
  hostMoID : String
  datastoreMoID : String
  childResourcePoolName : String
  childFolderName : String
  hasInstanceStorage : Bool
  storageProfileID : String
  storageProvisioning : String
  minCPUFreq : Int
  resourcePolicy : Option ResourcePolicyInfo
deriving Repr, DecidableEq

def emptyVMCreateArgs : VMCreateArgs :=
  { resourcePoolMoID := ""
    folderMoID := ""
    hostMoID := ""
    datastoreMoID := ""
    childResourcePoolName := ""
    childFolderName := ""
    hasInstanceStorage := false
    storageProfileID := ""
    storageProvisioning := ""
    minCPUFreq := 0
    resourcePolicy := none }

/-- What the prerequisite fetch (class/image/policy/metadata Gets) yields. -/
structure PrereqBundle where
  resourcePolicy : Option ResourcePolicyInfo
  classHasCPUPolicy : Bool
  classConfigSpecPresent : Bool
deriving Repr, DecidableEq

structure StorageArgs where
  storageProfileID : String
  storageProvisioning : String
deriving Repr, DecidableEq

/-- vcClient.Config() fields read by vmCreateValidateArgs. -/
structure VcConfig where
  storageClassRequired : Bool
  datastoreName : String
deriving Repr, DecidableEq

structure PlacementResult where
  poolMoRefValue : String
  hostMoRefValue : Option String
  instanceStoragePlacement : Bool
  zonePlacement : Bool
  zoneName : String
deriving Repr, DecidableEq

/-- Environment for one CreateOrUpdateVirtualMachine reconciliation. -/
structure CreateEnv where
  vcClientOK : Bool
  /-- getVM: the existing infrastructure instance's moref, if any. -/
  getVMResult : Except Err (Option String)
  instanceStorageFSS : Bool
  vmClassAsConfigFSS : Bool
  prereqFetch : Except Err PrereqBundle
  minCPUFreqFetch : Except Err Int
  classConfigSpecParse : Except Err Unit
  /-- AddInstanceStorageVolumes, then instancestorage.IsConfigured. -/
  addInstanceStorage : Except Err Bool
  storagePrereqs : Except Err StorageArgs
  vcConfig : VcConfig
  cfgDatastoreFind : Except Err String
  placementRes : Except Err PlacementResult
  hostFQDNFetch : Except Err String
  /-- topology.GetNamespaceFolderAndRPMoID → (nsFolderMoID, rpMoID). -/
  nsFolderAndRP : Except Err (String × String)
  /-- topology.GetNamespaceFolderMoID. -/
  nsFolder : Except Err String
  /-- SearchIndex FindChild under the root pool (`none` = not found). -/
  childRPFind : Except Err (Option String)
  childFolderFind : Except Err (Option String)
  rpOwnerFetch : Except Err String
  clusterModulesExist : Except Err Bool
  /-- ctx.Value(MaxDeployThreadsContextKey), absent when not an int. -/
  maxDeployThreads : Option Int
  /-- ses.CreateVirtualMachine → created VM's moref value. -/
  createTask : Except Err String
  clusterFetchOK : Bool
  updateTask : Except Err Unit
deriving Repr, DecidableEq

/-- vmCreateGetPrereqs: fetch class/image/policy/metadata; on success mark
the prereq-ready condition (a status write that sticks even if a later
sub-step fails), fold the policy's child names and the CPU min frequency
into the args. -/
def vmCreateGetPrereqs (env : CreateEnv) (vm : VirtualMachine) :
    Except Err VMCreateArgs × VirtualMachine :=
  match env.prereqFetch with
  | .error e => (.error e, vm)
  | .ok b =>
    let vm1 := markCondTrue vm prereqReadyCondType
    let args1 :=
      match b.resourcePolicy with
      | some p =>
        { emptyVMCreateArgs with
            resourcePolicy := some p
            childFolderName := p.folderChildName
            childResourcePoolName := p.rpChildName }
      | none => emptyVMCreateArgs
    match (if b.classHasCPUPolicy then env.minCPUFreqFetch.map some else .ok none) with
    | .error e => (.error e, vm1)
    | .ok freqOpt =>
      let args2 :=
        match freqOpt with
        | some freq => { args1 with minCPUFreq := freq }
        | none => args1
      if env.vmClassAsConfigFSS && b.classConfigSpecPresent then
        match env.classConfigSpecParse with
        | .error e => (.error e, vm1)
        | .ok _ => (.ok args2, vm1)
      else (.ok args2, vm1)

/-- vmCreateValidateArgs: storage-class / datastore argument validation. -/
def vmCreateValidateArgs (env : CreateEnv) (vm : VirtualMachine)
    (args : VMCreateArgs) : Except Err VMCreateArgs :=
  if env.vcConfig.storageClassRequired then
    if vm.spec.storageClass == "" then
      .error (.validation "StorageClass is required but not specified")
    else if args.storageProfileID == "" then
      .error (.validation "no StorageProfile found for StorageClass")
    else .ok args
  else if vm.spec.storageClass == "" then
    if env.vcConfig.datastoreName == "" then
      .error (.validation "no Datastore provided in configuration")
    else
      match env.cfgDatastoreFind with
      | .error _ => .error (.validation "failed to find Datastore")
      | .ok dsMoID => .ok { args with datastoreMoID := dsMoID }
  else .ok args

/-- vmCreateGetArgs: prerequisite fetch → optional instance-storage volume
materialization → storage prereqs → config-spec generation (total, config
payload not inspected by any claim) → argument validation. -/
def vmCreateGetArgs (env : CreateEnv) (vm : VirtualMachine) :
    Except Err VMCreateArgs × VirtualMachine :=
  match vmCreateGetPrereqs env vm with
  | (.error e, vm1) => (.error e, vm1)
  | (.ok args0, vm1) =>
    match (if env.instanceStorageFSS then env.addInstanceStorage.map some else .ok none) with
    | .error e => (.error e, vm1)
    | .ok cfgOpt =>
      let args1 :=
        match cfgOpt with
        | some isConfigured => { args0 with hasInstanceStorage := isConfigured }
        | none => args0
      match env.storagePrereqs with
      | .error e => (.error e, vm1)
      | .ok st =>
        let args2 :=
          { args1 with
              storageProfileID := st.storageProfileID
              storageProvisioning := st.storageProvisioning }
        match vmCreateValidateArgs env vm1 args2 with
        | .error e => (.error e, vm1)
        | .ok args3 => (.ok args3, vm1)

/-- vmCreateDoPlacement: call the placement scorer; fold pool/host into the
args; for instance-storage placement require a host and annotate the VM with
it; for zone placement set the zone label. -/
def vmCreateDoPlacement (env : CreateEnv) (vm : VirtualMachine)
    (args : VMCreateArgs) : Except Err VMCreateArgs × VirtualMachine :=
  match env.placementRes with
  | .error e => (.error e, vm)
  | .ok result =>
    let args1 :=
      if result.poolMoRefValue != "" then
        { args with resourcePoolMoID := result.poolMoRefValue }
      else args
    let args2 :=
      match result.hostMoRefValue with
      | some h => { args1 with hostMoID := h }
      | none => args1
    if result.instanceStoragePlacement then
      if args2.hostMoID == "" then (.error .placementMissingHost, vm)
      else
        match env.hostFQDNFetch with
        | .error e => (.error e, vm)
        | .ok hostFQDN =>
          let vm1 :=
            (vm.setAnn instStorageSelectedNodeMOIDKey args2.hostMoID).setAnn
              instStorageSelectedNodeKey hostFQDN
          let vm2 :=
            if result.zonePlacement then vm1.setLabel zoneLabelKey result.zoneName
            else vm1
          (.ok args2, vm2)
    else
      let vm2 :=
        if result.zonePlacement then vm.setLabel zoneLabelKey result.zoneName
        else vm
      (.ok args2, vm2)

/-- vcenter.GetChildResourcePool: a pure lookup beneath the parent pool; a
missing child is an error, and no create call is ever issued. -/
def GetChildResourcePool (outcome : Except Err (Option String))
    (parentMoID childName : String) : Except Err String × List VcEffect :=
  match outcome with
  | .error e => (.error e, [.childRPFindCall parentMoID childName])
  | .ok none =>
    (.error (.childRPNotFound childName parentMoID),
      [.childRPFindCall parentMoID childName])
  | .ok (some moid) => (.ok moid, [.childRPFindCall parentMoID childName])

/-- vcenter.GetChildFolder, symmetric to GetChildResourcePool. -/
def GetChildFolder (outcome : Except Err (Option String))
    (parentMoID childName : String) : Except Err String × List VcEffect :=
  match outcome with
  | .error e => (.error e, [.childFolderFindCall parentMoID childName])
  | .ok none =>
    (.error (.childFolderNotFound childName parentMoID),
      [.childFolderFindCall parentMoID childName])
  | .ok (some moid) => (.ok moid, [.childFolderFindCall parentMoID childName])

/-- Tail of vmCreateGetFolderAndRPMoIDs: the child-folder lookup shared by
both branches. -/
def vmCreateChildFolderPart (env : CreateEnv) (args : VMCreateArgs)
    (tr : List VcEffect) : Except Err VMCreateArgs × List VcEffect :=
  if args.childFolderName != "" then
    let r := GetChildFolder env.childFolderFind args.folderMoID args.childFolderName
    match r.1 with
    | .error e => (.error e, tr ++ r.2)
    | .ok childMoID => (.ok { args with folderMoID := childMoID }, tr ++ r.2)
  else (.ok args, tr)

/-- vmCreateGetFolderAndRPMoIDs: when placement already fixed a resource
pool, fetch only this namespace's folder; otherwise resolve the
namespace/zone root pool and folder and, when a child pool is named, look
it up beneath the root. -/
def vmCreateGetFolderAndRPMoIDs (env : CreateEnv) (vm : VirtualMachine)
    (args : VMCreateArgs) : Except Err VMCreateArgs × List VcEffect :=
  let zone := (lookupKV (vm.labels.getD []) zoneLabelKey).getD ""
  if args.resourcePoolMoID == "" then
    match env.nsFolderAndRP with
    | .error e => (.error e, [.nsFolderAndRPFetch zone vm.ns])
    | .ok (nsFolderMoID, rpMoID) =>
      if args.childResourcePoolName != "" then
        let r := GetChildResourcePool env.childRPFind rpMoID args.childResourcePoolName
        match r.1 with
        | .error e => (.error e, [.nsFolderAndRPFetch zone vm.ns] ++ r.2)
        | .ok childMoID =>
          vmCreateChildFolderPart env
            { args with resourcePoolMoID := childMoID, folderMoID := nsFolderMoID }
            ([.nsFolderAndRPFetch zone vm.ns] ++ r.2)
      else
        vmCreateChildFolderPart env
          { args with resourcePoolMoID := rpMoID, folderMoID := nsFolderMoID }
          [.nsFolderAndRPFetch zone vm.ns]
  else
    match env.nsFolder with
    | .error e => (.error e, [.nsFolderFetch vm.ns])
    | .ok nsFolderMoID =>
      vmCreateChildFolderPart env { args with folderMoID := nsFolderMoID }
        [.nsFolderFetch vm.ns]

/-- vmCreateIsReady: the resource policy must not be being deleted and its
cluster modules must exist; instance-storage VMs need their PVCs bound. -/
def vmCreateIsReady (env : CreateEnv) (vm : VirtualMachine)
    (args : VMCreateArgs) : Except Err Unit :=
  let instStoragePart : Except Err Unit :=
    if args.hasInstanceStorage && (vm.getAnn instStoragePVCsBoundKey).isNone then
      .error .pvcsNotBound
    else .ok ()
  match args.resourcePolicy with
  | some policy =>
    if policy.beingDeleted then .error .policyBeingDeleted
    else
      match env.rpOwnerFetch with
      | .error e => .error e
      | .ok _clusterMoRef =>
        match env.clusterModulesExist with
        | .error e => .error e
        | .ok ex => if ex then instStoragePart else .error .clusterModulesNotReady
  | none => instStoragePart

/-- createVirtualMachine: the Absent → Creating transition.  `ok none`
models the Go `(nil, nil)` return on admission denial.  The third component
is the admission counter after the call (the deferred release has run by
the time the function returns). -/
def createVirtualMachine (env : CreateEnv) (vm : VirtualMachine) (count : Int) :
    Except Err (Option String) × VirtualMachine × Int × List VcEffect :=
  match vmCreateGetArgs env vm with
  | (.error e, vm1) => (.error e, vm1, count, [])
  | (.ok args0, vm1) =>
    let vm2 := { vm1 with status := { vm1.status with phase := CreatingPhase } }
    match vmCreateDoPlacement env vm2 args0 with
    | (.error e, vm3) => (.error e, vm3, count, [])
    | (.ok args1, vm3) =>
      match vmCreateGetFolderAndRPMoIDs env vm3 args1 with
      | (.error e, tr) => (.error e, vm3, count, tr)
      | (.ok args2, tr) =>
        match vmCreateIsReady env vm3 args2 with
        | .error e => (.error e, vm3, count, tr)
        | .ok _ =>
          match env.maxDeployThreads with
          | none => (.error .maxDeployThreadsMissing, vm3, count, tr)
          | some maxT =>
            let acq := vmCreateConcurrentAllowed maxT count
            if acq.1 = false then (.ok none, vm3, acq.2, tr)
            else
              match env.createTask with
              | .error e =>
                (.error e, vm3, createDeferFn acq.2, tr ++ [.createVMTask])
              | .ok morefValue =>
                let vm4 :=
                  { vm3 with status :=
                    { vm3.status with phase := CreatedPhase, uniqueID := morefValue } }
                (.ok (some morefValue), vm4, createDeferFn acq.2, tr ++ [.createVMTask])

/-- updateVirtualMachine: fetch the cluster, build a session and issue the
reconfigure; details of the update args are external to the claims. -/
def updateVirtualMachine (env : CreateEnv) : Except Err Unit × List VcEffect :=
  if env.clusterFetchOK = false then (.error (.findFailed "cluster"), [.clusterFetch])
  else
    match env.updateTask with
    | .error e => (.error e, [.clusterFetch, .reconfigureTask])
    | .ok _ => (.ok (), [.clusterFetch, .reconfigureTask])

/-- CreateOrUpdateVirtualMachine: look the instance up; when absent run the
create pipeline; a `(nil, nil)` create (admission denied) returns success
with no further work; otherwise fall through to update. -/
def CreateOrUpdateVirtualMachine (env : CreateEnv) (vm : VirtualMachine)
    (count : Int) : Except Err Unit × VirtualMachine × Int × List VcEffect :=
  if env.vcClientOK = false then (.error .vcClientFailed, vm, count, [])
  else
    match env.getVMResult with
    | .error e => (.error e, vm, count, [])
    | .ok (some _) =>
      let upd := updateVirtualMachine env
      (upd.1, vm, count, upd.2)
    | .ok none =>
      match createVirtualMachine env vm count with
      | (.error e, vm1, count1, tr) => (.error e, vm1, count1, tr)
      | (.ok none, vm1, count1, tr) => (.ok (), vm1, count1, tr)
      | (.ok (some _), vm1, count1, tr) =>
        let upd := updateVirtualMachine env
        (upd.1, vm1, count1, tr ++ upd.2)

/-! ## Concrete example inputs used by witnesses and counterexamples -/

def exVMSpec : VirtualMachineSpec :=
  { className := "best-effort-small"
    imageName := "ubuntu-2204"
    powerState := "poweredOn"
    storageClass := "wcp-policy"
    networkInterfaces := [{ networkName := "net-a", networkType := "vsphere-distributed" }] }

def exVM : VirtualMachine :=
  { name := "vm-1"
    ns := "ns-1"
    anns := none
    labels := none
    spec := exVMSpec
    status := { phase := "", uniqueID := "", condsTrue := [] } }

def exOpSpec (ty : OperationType) : OperationSpec :=
  { operationType := ty
    entityName := "vm-1"
    vmSpec := exVMSpec
    relocateSpec :=
      { hostIp := "10.1.1.1"
        resourcePoolName := "dst-rp"
        datastoreName := "dst-ds"
        vmNetworkName := "dst-net"
        folderName := "dst-folder" } }

def exOp (ty : OperationType) : Operation :=
  { name := "op-1", ns := "ns-1", spec := exOpSpec ty }

def exCluster : Cluster := ⟨[exVM]⟩

def noFaults : Faults :=
  { vmGetTransient := false
    updateFails := false
    deleteFails := false
    createFails := false
    connFails := false
    relocateFails := false
    importFails := false }

/-- Relocate environment for an existing VM with one NIC. -/
def exRelocEnv : RelocEnv :=
  { vcClientOK := true
    vmLookup := .ok (some "vm-42")
    hostFind := .ok "host-9"
    poolFind := .ok "pool-9"
    dsFind := .ok "ds-9"
    networkFind := .ok "network-9"
    deviceList := .ok [.otherDevice 100, .vmxnet3 4000 "src-net"]
    folderFind := .ok "folder-9"
    relocateTaskOutcome := .ok () }

/-- A fully healthy create environment (every external call succeeds). -/
def exCreateEnv : CreateEnv :=
  { vcClientOK := true
    getVMResult := .ok none
    instanceStorageFSS := false
    vmClassAsConfigFSS := false
    prereqFetch := .ok
      { resourcePolicy := none, classHasCPUPolicy := false,
        classConfigSpecPresent := false }
    minCPUFreqFetch := .ok 2200
    classConfigSpecParse := .ok ()
    addInstanceStorage := .ok false
    storagePrereqs := .ok { storageProfileID := "profile-1", storageProvisioning := "thin" }
    vcConfig := { storageClassRequired := true, datastoreName := "" }
    cfgDatastoreFind := .ok "ds-cfg"
    placementRes := .ok
      { poolMoRefValue := "pool-7", hostMoRefValue := none,
        instanceStoragePlacement := false, zonePlacement := false, zoneName := "" }
    hostFQDNFetch := .ok "esx-1.example.com"
    nsFolderAndRP := .ok ("folder-ns", "rp-root")
    nsFolder := .ok "folder-ns"
    childRPFind := .ok (some "rp-child")
    childFolderFind := .ok (some "folder-child")
    rpOwnerFetch := .ok "cluster-1"
    clusterModulesExist := .ok true
    maxDeployThreads := some 4
    createTask := .ok "vm-moref-1"
    clusterFetchOK := true
    updateTask := .ok () }

/-- Environment whose placement call fails (everything earlier succeeds). -/
def exCreateEnvPlacementFail : CreateEnv :=
  { exCreateEnv with placementRes := .error .placementFailed }

/-- Environment whose prerequisite fetch fails. -/
def exCreateEnvPrereqFail : CreateEnv :=
  { exCreateEnv with prereqFetch := .error .prereqFailed }

theorem gateRun_le (maxDeployThreads : Int) :
    ∀ (ops : List GateOp) (count : Int), count ≤ maxDeployThreads →
      gateRun maxDeployThreads count ops ≤ maxDeployThreads := by
  intro ops
  induction ops with
  | nil => intro count h; exact h
  | cons op ops ih =>
    intro count h
    have hstep : gateStep maxDeployThreads count op ≤ maxDeployThreads := by
      cases op with
      | acquire =>
        simp only [gateStep, vmCreateConcurrentAllowed]
        split
        · exact h
        · next hc =>
          show count + 1 ≤ maxDeployThreads
          omega
      | release =>
        show count - 1 ≤ maxDeployThreads
        omega
    exact ih _ hstep

/-- C1: For every limit N, the admission gate's shared counter never exceeds
N: an acquire attempt made while the counter is at or above N returns
not-granted without blocking and leaves the counter unchanged; a granted
attempt increments the counter by one; and the returned release function
decrements it by exactly one when invoked. -/
theorem admission_gate_bounded (maxDeployThreads count : Int) :
    (count ≥ maxDeployThreads →
      vmCreateConcurrentAllowed maxDeployThreads count = (false, count)) ∧
    (count < maxDeployThreads →
      vmCreateConcurrentAllowed maxDeployThreads count = (true, count + 1)) ∧
    createDeferFn count = count - 1 ∧
    (∀ ops : List GateOp, count ≤ maxDeployThreads →
      gateRun maxDeployThreads count ops ≤ maxDeployThreads) := by
  refine ⟨?_, ?_, rfl, fun ops h => gateRun_le maxDeployThreads ops count h⟩
  · intro h
    simp [vmCreateConcurrentAllowed, h]
  · intro h
    simp [vmCreateConcurrentAllowed, not_le.mpr h, le_of_lt h]

/-- Witness for C1 at limit 2: a full counter denies and stays put, a free
slot grants and increments, release decrements, and a concrete trace of
acquires and releases never pushes the counter past the limit. -/
theorem admission_gate_bounded_witness :
    vmCreateConcurrentAllowed 2 2 = (false, 2) ∧
    vmCreateConcurrentAllowed 2 1 = (true, 2) ∧
    createDeferFn 1 = 0 ∧
    gateRun 2 0 [.acquire, .acquire, .acquire, .release, .acquire] ≤ 2 :=
  ⟨(admission_gate_bounded 2 2).1 (by decide),
   (admission_gate_bounded 2 1).2.1 (by decide),
   (admission_gate_bounded 2 1).2.2.1,
   (admission_gate_bounded 2 0).2.2.2 [.acquire, .acquire, .acquire, .release, .acquire]
     (by decide)⟩

/-! ### Association-list and cluster lookup lemmas -/

theorem lookupKV_setKV (m : List (String × String)) (k v : String) :
    lookupKV (setKV m k v) k = some v := by
  induction m with
  | nil => simp [setKV, lookupKV]
  | cons p rest ih =>
    by_cases hp : p.1 == k
    · have hany : (p :: rest).any (fun q => q.1 == k) = true := by
        simp [hp]
      unfold setKV
      rw [if_pos hany, List.map_cons, if_pos hp]
      unfold lookupKV
      rw [List.find?_cons_of_pos _ (by simp)]
      rfl
    · have hp' : ¬ p.1 = k := by simpa using hp
      have hstep : setKV (p :: rest) k v = p :: setKV rest k v := by
        by_cases hr : rest.any (fun q => q.1 == k) <;>
          simp [setKV, hp, hp', hr]
      rw [hstep]
      simp only [lookupKV] at ih ⊢
      rw [List.find?_cons_of_neg _ (by simpa using hp)]
      exact ih

theorem find?_map_update (vm' : VirtualMachine) :
    ∀ l : List VirtualMachine,
      ((l.find? (fun x => x.ns == vm'.ns && x.name == vm'.name)).isSome) →
      (l.map (fun x => if x.ns == vm'.ns && x.name == vm'.name then vm' else x)).find?
        (fun x => x.ns == vm'.ns && x.name == vm'.name) = some vm' := by
  intro l
  induction l with
  | nil => intro h; simp at h
  | cons x rest ih =>
    intro h
    by_cases hx : (x.ns == vm'.ns && x.name == vm'.name : Bool)
    · rw [List.map_cons, if_pos hx]
      exact List.find?_cons_of_pos _ (by simp)
    · rw [List.map_cons, if_neg (by simpa using hx),
        List.find?_cons_of_neg _ (by simpa using hx)]
      apply ih
      rw [List.find?_cons_of_neg _ (by simpa using hx)] at h
      exact h

/-- Updating a stored VM leaves it findable, now with the new content. -/
theorem findVM_updateVMIn (c : Cluster) (vm' : VirtualMachine)
    (h : (findVM c vm'.ns vm'.name).isSome) :
    findVM (updateVMIn c vm') vm'.ns vm'.name = some vm' :=
  find?_map_update vm' c.vms h

/-- A VM appended to a cluster that did not contain its key is found. -/
theorem findVM_append (c : Cluster) (vm : VirtualMachine)
    (h : findVM c vm.ns vm.name = none) :
    findVM ⟨c.vms ++ [vm]⟩ vm.ns vm.name = some vm := by
  unfold findVM at *
  rw [List.find?_append, h]
  simp

theorem findVM_keys (c : Cluster) (ns n : String) (vm : VirtualMachine)
    (h : findVM c ns n = some vm) : vm.ns = ns ∧ vm.name = n := by
  have hp := List.find?_some h
  simp only [Bool.and_eq_true, beq_iff_eq] at hp
  exact hp

/-- C4: Export always writes and persists the export annotation on the
source VM (lazily creating the annotation map if absent) before attempting
deletion: when the annotation update succeeds and the subsequent delete
fails, the call errors, the trace shows the update strictly before the
delete attempt, and the VM remains present in the cluster carrying the
export annotation set to "true". -/
theorem export_annotate_before_delete (c : Cluster) (f : Faults)
    (op : Operation) (vm : VirtualMachine)
    (hget : f.vmGetTransient = false)
    (hfound : findVM c op.ns op.spec.entityName = some vm)
    (hupd : f.updateFails = false)
    (hdel : f.deleteFails = true) :
    exportVM c f op =
      (.error .deleteFailed,
        updateVMIn c (vm.setAnn exportAnnKey "true"),
        [.updateVMCall vm.name, .deleteVMCall vm.name]) ∧
    findVM (updateVMIn c (vm.setAnn exportAnnKey "true")) op.ns op.spec.entityName =
      some (vm.setAnn exportAnnKey "true") ∧
    (vm.setAnn exportAnnKey "true").getAnn exportAnnKey = some "true" := by
  obtain ⟨hns, hname⟩ := findVM_keys c _ _ vm hfound
  refine ⟨?_, ?_, ?_⟩
  · simp [exportVM, k8sGetVM, hget, hfound, hupd, hdel, VirtualMachine.setAnn]
  · have hsome : (findVM c (vm.setAnn exportAnnKey "true").ns
        (vm.setAnn exportAnnKey "true").name).isSome := by
      simp [VirtualMachine.setAnn, hns, hname, hfound]
    have h2 := findVM_updateVMIn c (vm.setAnn exportAnnKey "true") hsome
    simpa [VirtualMachine.setAnn, hns, hname] using h2
  · simp [VirtualMachine.getAnn, VirtualMachine.setAnn, lookupKV_setKV]

/-- Witness for C4: delete fails on the example cluster; the VM stays,
annotated. -/
theorem export_annotate_before_delete_witness :
    exportVM exCluster { noFaults with deleteFails := true } (exOp .Export) =
      (.error .deleteFailed,
        updateVMIn exCluster (exVM.setAnn exportAnnKey "true"),
        [.updateVMCall exVM.name, .deleteVMCall exVM.name]) ∧
    findVM (updateVMIn exCluster (exVM.setAnn exportAnnKey "true"))
        (exOp .Export).ns (exOp .Export).spec.entityName =
      some (exVM.setAnn exportAnnKey "true") ∧
    (exVM.setAnn exportAnnKey "true").getAnn exportAnnKey = some "true" :=
  export_annotate_before_delete exCluster _ (exOp .Export) exVM rfl rfl rfl rfl

/-- C6: Import with an explicit entity name is idempotent: with no faults
and no VM of that name in the operation's namespace, a VM is created from
the embedded spec and success returned; re-running on the resulting cluster
returns success with no create call and the cluster unchanged. -/
theorem reconcileImport_named_idempotent (c : Cluster) (f : Faults) (op : Operation)
    (hget : f.vmGetTransient = false) (hcr : f.createFails = false)
    (habsent : findVM c op.ns op.spec.entityName = none) :
    reconcileImportWithVMSpec c f op =
      (.ok (), ⟨c.vms ++ [newVMFromSpec op.spec.entityName op.ns op.spec.vmSpec]⟩,
        [.createVMCall op.spec.entityName]) ∧
    findVM ⟨c.vms ++ [newVMFromSpec op.spec.entityName op.ns op.spec.vmSpec]⟩
        op.ns op.spec.entityName =
      some (newVMFromSpec op.spec.entityName op.ns op.spec.vmSpec) ∧
    reconcileImportWithVMSpec
        ⟨c.vms ++ [newVMFromSpec op.spec.entityName op.ns op.spec.vmSpec]⟩ f op =
      (.ok (), ⟨c.vms ++ [newVMFromSpec op.spec.entityName op.ns op.spec.vmSpec]⟩,
        []) := by
  have hfind : findVM ⟨c.vms ++ [newVMFromSpec op.spec.entityName op.ns op.spec.vmSpec]⟩
      op.ns op.spec.entityName =
      some (newVMFromSpec op.spec.entityName op.ns op.spec.vmSpec) := by
    have h := findVM_append c (newVMFromSpec op.spec.entityName op.ns op.spec.vmSpec)
      (by simpa [newVMFromSpec] using habsent)
    simpa [newVMFromSpec] using h
  refine ⟨?_, hfind, ?_⟩
  · simp [reconcileImportWithVMSpec, k8sGetVM, hget, habsent, k8sCreateVM, hcr,
      newVMFromSpec]
  · simp [reconcileImportWithVMSpec, k8sGetVM, hget, hfind]

/-- Witness for C6 on the empty cluster. -/
theorem reconcileImport_named_idempotent_witness :
    reconcileImportWithVMSpec ⟨[]⟩ noFaults (exOp .Import) =
      (.ok (),
        ⟨[] ++ [newVMFromSpec (exOp .Import).spec.entityName (exOp .Import).ns
          (exOp .Import).spec.vmSpec]⟩,
        [.createVMCall (exOp .Import).spec.entityName]) ∧
    findVM ⟨[] ++ [newVMFromSpec (exOp .Import).spec.entityName (exOp .Import).ns
        (exOp .Import).spec.vmSpec]⟩ (exOp .Import).ns (exOp .Import).spec.entityName =
      some (newVMFromSpec (exOp .Import).spec.entityName (exOp .Import).ns
        (exOp .Import).spec.vmSpec) ∧
    reconcileImportWithVMSpec
        ⟨[] ++ [newVMFromSpec (exOp .Import).spec.entityName (exOp .Import).ns
          (exOp .Import).spec.vmSpec]⟩ noFaults (exOp .Import) =
      (.ok (),
        ⟨[] ++ [newVMFromSpec (exOp .Import).spec.entityName (exOp .Import).ns
          (exOp .Import).spec.vmSpec]⟩, []) :=
  reconcileImport_named_idempotent ⟨[]⟩ noFaults (exOp .Import) rfl rfl rfl

/-- C9: Import with an explicit entity name treats every lookup failure as
absence: a transient Get error while the VM actually exists still takes the
create path, so a create call is issued (and, the name being taken, fails
with AlreadyExists). -/
theorem reconcileImport_transient_creates (c : Cluster) (f : Faults)
    (op : Operation) (vm : VirtualMachine)
    (htr : f.vmGetTransient = true) (hcr : f.createFails = false)
    (hexists : findVM c op.ns op.spec.entityName = some vm) :
    reconcileImportWithVMSpec c f op =
      (.error .k8sAlreadyExists, c, [.createVMCall op.spec.entityName]) := by
  simp [reconcileImportWithVMSpec, k8sGetVM, htr, k8sCreateVM, hcr, newVMFromSpec,
    hexists]

/-- Witness for C9: transient lookup error with `vm-1` present. -/
theorem reconcileImport_transient_creates_witness :
    reconcileImportWithVMSpec exCluster { noFaults with vmGetTransient := true }
      (exOp .Import) =
      (.error .k8sAlreadyExists, exCluster,
        [.createVMCall (exOp .Import).spec.entityName]) :=
  reconcileImport_transient_creates exCluster _ (exOp .Import) exVM rfl rfl rfl

/-! ### Create-pipeline helper lemmas -/

theorem markCondTrue_phase (vm : VirtualMachine) (s : String) :
    (markCondTrue vm s).status.phase = vm.status.phase := by
  unfold markCondTrue; split <;> rfl

theorem markCondTrue_uniqueID (vm : VirtualMachine) (s : String) :
    (markCondTrue vm s).status.uniqueID = vm.status.uniqueID := by
  unfold markCondTrue; split <;> rfl

theorem vmCreateGetPrereqs_vm (env : CreateEnv) (vm : VirtualMachine) :
    (vmCreateGetPrereqs env vm).2 = vm ∨
    (vmCreateGetPrereqs env vm).2 = markCondTrue vm prereqReadyCondType := by
  unfold vmCreateGetPrereqs
  (repeat' split) <;> simp

theorem vmCreateGetArgs_vm (env : CreateEnv) (vm : VirtualMachine) :
    (vmCreateGetArgs env vm).2 = (vmCreateGetPrereqs env vm).2 := by
  simp only [vmCreateGetArgs]
  (repeat' split) <;> simp_all

theorem vmCreateGetArgs_phase (env : CreateEnv) (vm : VirtualMachine) :
    (vmCreateGetArgs env vm).2.status.phase = vm.status.phase := by
  rw [vmCreateGetArgs_vm]
  rcases vmCreateGetPrereqs_vm env vm with h | h
  · rw [h]
  · rw [h]; exact markCondTrue_phase vm _

theorem vmCreateGetArgs_uniqueID (env : CreateEnv) (vm : VirtualMachine) :
    (vmCreateGetArgs env vm).2.status.uniqueID = vm.status.uniqueID := by
  rw [vmCreateGetArgs_vm]
  rcases vmCreateGetPrereqs_vm env vm with h | h
  · rw [h]
  · rw [h]; exact markCondTrue_uniqueID vm _

theorem setAnn_status (vm : VirtualMachine) (k v : String) :
    (vm.setAnn k v).status = vm.status := rfl

theorem setLabel_status (vm : VirtualMachine) (k v : String) :
    (vm.setLabel k v).status = vm.status := rfl

theorem vmCreateDoPlacement_status (env : CreateEnv) (vm : VirtualMachine)
    (args : VMCreateArgs) :
    (vmCreateDoPlacement env vm args).2.status = vm.status := by
  simp only [vmCreateDoPlacement]
  (repeat' split) <;> rfl

theorem GetChildResourcePool_trace (o : Except Err (Option String)) (p n : String) :
    (GetChildResourcePool o p n).2 = [.childRPFindCall p n] := by
  unfold GetChildResourcePool
  (repeat' split) <;> rfl

theorem GetChildFolder_trace (o : Except Err (Option String)) (p n : String) :
    (GetChildFolder o p n).2 = [.childFolderFindCall p n] := by
  unfold GetChildFolder
  (repeat' split) <;> rfl

theorem vmCreateChildFolderPart_trace (env : CreateEnv) (args : VMCreateArgs)
    (tr : List VcEffect) :
    (vmCreateChildFolderPart env args tr).2 = tr ∨
    (vmCreateChildFolderPart env args tr).2 =
      tr ++ [.childFolderFindCall args.folderMoID args.childFolderName] := by
  simp only [vmCreateChildFolderPart]
  split
  · cases hgc : (GetChildFolder env.childFolderFind args.folderMoID args.childFolderName).1 <;>
      simp [GetChildFolder_trace]
  · left; rfl

theorem vmCreateChildFolderPart_pool (env : CreateEnv) (args args' : VMCreateArgs)
    (tr tr' : List VcEffect)
    (h : vmCreateChildFolderPart env args tr = (.ok args', tr')) :
    args'.resourcePoolMoID = args.resourcePoolMoID := by
  simp only [vmCreateChildFolderPart] at h
  split at h
  · cases hgc : (GetChildFolder env.childFolderFind args.folderMoID args.childFolderName).1 <;>
      rw [hgc] at h
    · exact absurd h (by simp)
    · injection h with hfst hsnd
      injection hfst with hargs
      rw [← hargs]
  · injection h with hfst hsnd
    injection hfst with hargs
    rw [← hargs]

theorem vmCreateChildFolderPart_empty (env : CreateEnv) (args : VMCreateArgs)
    (tr : List VcEffect) (h : args.childFolderName = "") :
    vmCreateChildFolderPart env args tr = (.ok args, tr) := by
  unfold vmCreateChildFolderPart
  simp [h]

/-- Every effect of the folder/pool-binding step is a namespace fetch or a
child find: in particular it contains no create call and no task. -/
theorem folderRP_trace_shape (env : CreateEnv) (vm : VirtualMachine)
    (args : VMCreateArgs) (x : VcEffect)
    (hx : x ∈ (vmCreateGetFolderAndRPMoIDs env vm args).2) :
    (∃ z n, x = .nsFolderAndRPFetch z n) ∨ (∃ n, x = .nsFolderFetch n) ∨
    (∃ p n, x = .childRPFindCall p n) ∨ (∃ p n, x = .childFolderFindCall p n) := by
  have hcf : ∀ (a : VMCreateArgs) (tr : List VcEffect),
      x ∈ (vmCreateChildFolderPart env a tr).2 →
      x ∈ tr ∨ ∃ p n, x = VcEffect.childFolderFindCall p n := by
    intro a tr hmem
    rcases vmCreateChildFolderPart_trace env a tr with h | h <;> rw [h] at hmem
    · exact Or.inl hmem
    · rcases List.mem_append.mp hmem with h1 | h1
      · exact Or.inl h1
      · simp at h1; subst h1; exact Or.inr ⟨_, _, rfl⟩
  simp only [vmCreateGetFolderAndRPMoIDs] at hx
  split at hx
  · split at hx
    · simp at hx; subst hx; exact Or.inl ⟨_, _, rfl⟩
    · split at hx
      · split at hx
        · rw [GetChildResourcePool_trace] at hx
          simp at hx
          rcases hx with h | h
          · subst h; exact Or.inl ⟨_, _, rfl⟩
          · subst h; exact Or.inr (Or.inr (Or.inl ⟨_, _, rfl⟩))
        · rcases hcf _ _ hx with hmem | hmem
          · rw [GetChildResourcePool_trace] at hmem
            simp at hmem
            rcases hmem with h | h
            · subst h; exact Or.inl ⟨_, _, rfl⟩
            · subst h; exact Or.inr (Or.inr (Or.inl ⟨_, _, rfl⟩))
          · exact Or.inr (Or.inr (Or.inr hmem))
      · rcases hcf _ _ hx with hmem | hmem
        · simp at hmem; subst hmem; exact Or.inl ⟨_, _, rfl⟩
        · exact Or.inr (Or.inr (Or.inr hmem))
  · split at hx
    · simp at hx; subst hx; exact Or.inr (Or.inl ⟨_, rfl⟩)
    · rcases hcf _ _ hx with hmem | hmem
      · simp at hmem; subst hmem; exact Or.inr (Or.inl ⟨_, rfl⟩)
      · exact Or.inr (Or.inr (Or.inr hmem))

/-- C8: Resource binding.  (a) When placement already selected a resource
pool (non-empty pool id), the step leaves the pool id unchanged and its only
effects are folder fetches — exactly the namespace-folder fetch when no
child folder is configured.  (b) When no pool was selected and a child
resource pool name is configured, the step resolves the namespace/zone root
pool and folder and looks the child up beneath the root: a found child
becomes the pool, a missing child aborts the reconciliation with an error.
(c) The step never issues a child-pool create call. -/
theorem resource_binding_resolution (env : CreateEnv) (vm : VirtualMachine)
    (args : VMCreateArgs) :
    (args.resourcePoolMoID ≠ "" →
      (∀ args' tr, vmCreateGetFolderAndRPMoIDs env vm args = (.ok args', tr) →
        args'.resourcePoolMoID = args.resourcePoolMoID) ∧
      ((vmCreateGetFolderAndRPMoIDs env vm args).2 = [.nsFolderFetch vm.ns] ∨
        ∃ p, (vmCreateGetFolderAndRPMoIDs env vm args).2 =
          [.nsFolderFetch vm.ns, .childFolderFindCall p args.childFolderName]) ∧
      (args.childFolderName = "" →
        (vmCreateGetFolderAndRPMoIDs env vm args).2 = [.nsFolderFetch vm.ns])) ∧
    (args.resourcePoolMoID = "" → args.childResourcePoolName ≠ "" →
      ∀ nsF rp, env.nsFolderAndRP = .ok (nsF, rp) →
        (env.childRPFind = .ok none →
          vmCreateGetFolderAndRPMoIDs env vm args =
            (.error (.childRPNotFound args.childResourcePoolName rp),
              [.nsFolderAndRPFetch
                  ((lookupKV (vm.labels.getD []) zoneLabelKey).getD "") vm.ns,
                .childRPFindCall rp args.childResourcePoolName])) ∧
        (∀ cid, env.childRPFind = .ok (some cid) →
          ∀ args' tr, vmCreateGetFolderAndRPMoIDs env vm args = (.ok args', tr) →
            args'.resourcePoolMoID = cid)) ∧
    (∀ p n, VcEffect.childRPCreateCall p n ∉
      (vmCreateGetFolderAndRPMoIDs env vm args).2) := by
  refine ⟨?_, ?_, ?_⟩
  · intro hpool
    have hb : (args.resourcePoolMoID == "") = false := by
      simpa using hpool
    refine ⟨?_, ?_, ?_⟩
    · intro args' tr h
      cases hns : env.nsFolder with
      | error e =>
        simp [vmCreateGetFolderAndRPMoIDs, hb, hns] at h
      | ok nsF =>
        simp only [vmCreateGetFolderAndRPMoIDs, hb, hns] at h
        simp at h
        exact vmCreateChildFolderPart_pool env { args with folderMoID := nsF } args'
          [.nsFolderFetch vm.ns] tr h
    · cases hns : env.nsFolder with
      | error e =>
        left
        simp [vmCreateGetFolderAndRPMoIDs, hb, hns]
      | ok nsF =>
        have heq : (vmCreateGetFolderAndRPMoIDs env vm args).2 =
            (vmCreateChildFolderPart env { args with folderMoID := nsF }
              [.nsFolderFetch vm.ns]).2 := by
          simp [vmCreateGetFolderAndRPMoIDs, hb, hns]
        rw [heq]
        rcases vmCreateChildFolderPart_trace env { args with folderMoID := nsF }
            [.nsFolderFetch vm.ns] with h2 | h2
        · left; rw [h2]
        · right
          refine ⟨nsF, ?_⟩
          simp [h2]
    · intro hempty
      cases hns : env.nsFolder with
      | error e => simp [vmCreateGetFolderAndRPMoIDs, hb, hns]
      | ok nsF =>
        have h3 := vmCreateChildFolderPart_empty env { args with folderMoID := nsF }
          [.nsFolderFetch vm.ns] hempty
        simp [vmCreateGetFolderAndRPMoIDs, hb, hns, h3]
  · intro hpool hchild nsF rp hns
    have hb : (args.resourcePoolMoID == "") = true := by simp [hpool]
    have hc : (args.childResourcePoolName != "") = true := by simpa using hchild
    refine ⟨?_, ?_⟩
    · intro hrf
      simp [vmCreateGetFolderAndRPMoIDs, hb, hns, hc, GetChildResourcePool, hrf]
    · intro cid hrf args' tr h
      simp only [vmCreateGetFolderAndRPMoIDs, hb, hns, hc, GetChildResourcePool,
        hrf] at h
      simp at h
      have := vmCreateChildFolderPart_pool env _ args' _ tr h
      exact this
  · intro p n hmem
    rcases folderRP_trace_shape env vm args _ hmem with ⟨z, m, h⟩ | ⟨m, h⟩ |
      ⟨q, m, h⟩ | ⟨q, m, h⟩ <;> exact absurd h (by simp)

/-- Witness for C8: the three branches at concrete inputs. -/
theorem resource_binding_resolution_witness :
    (vmCreateGetFolderAndRPMoIDs exCreateEnv exVM
        { emptyVMCreateArgs with resourcePoolMoID := "pool-7" }).2 =
      [.nsFolderFetch exVM.ns] ∧
    vmCreateGetFolderAndRPMoIDs { exCreateEnv with childRPFind := .ok none } exVM
        { emptyVMCreateArgs with childResourcePoolName := "rp-child" } =
      (.error (.childRPNotFound "rp-child" "rp-root"),
        [.nsFolderAndRPFetch ((lookupKV (exVM.labels.getD []) zoneLabelKey).getD "")
            exVM.ns,
          .childRPFindCall "rp-root" "rp-child"]) ∧
    VcEffect.childRPCreateCall "rp-root" "rp-child" ∉
      (vmCreateGetFolderAndRPMoIDs exCreateEnv exVM emptyVMCreateArgs).2 :=
  ⟨((resource_binding_resolution exCreateEnv exVM _).1 (by decide)).2.2 rfl,
   ((resource_binding_resolution _ exVM _).2.1 rfl (by decide)
     "folder-ns" "rp-root" rfl).1 rfl,
   (resource_binding_resolution exCreateEnv exVM emptyVMCreateArgs).2.2
     "rp-root" "rp-child"⟩

/-- A getArgs abort returns immediately with the (possibly condition-marked)
VM and an untouched counter and trace. -/
theorem createVirtualMachine_getargs_error (env : CreateEnv)
    (vm : VirtualMachine) (count : Int) (e : Err) (vm1 : VirtualMachine)
    (h : vmCreateGetArgs env vm = (.error e, vm1)) :
    createVirtualMachine env vm count = (.error e, vm1, count, []) := by
  simp only [createVirtualMachine, h]

/-- After a successful argument assembly, every abort (error or admission
denial) returns a VM whose status is the assembled VM's status with the
phase set to Creating. -/
theorem createVirtualMachine_abort_vm (env : CreateEnv) (vm : VirtualMachine)
    (count : Int) (args0 : VMCreateArgs) (vm1 : VirtualMachine)
    (h : vmCreateGetArgs env vm = (.ok args0, vm1))
    (habort : (createVirtualMachine env vm count).1 = .ok none ∨
      ∃ e, (createVirtualMachine env vm count).1 = .error e) :
    (createVirtualMachine env vm count).2.1.status =
      { vm1.status with phase := CreatingPhase } := by
  rcases hplace : vmCreateDoPlacement env
      { vm1 with status := { vm1.status with phase := CreatingPhase } } args0
    with ⟨r2, vm3⟩
  have hst3 : vm3.status = { vm1.status with phase := CreatingPhase } := by
    have h2 := vmCreateDoPlacement_status env
      { vm1 with status := { vm1.status with phase := CreatingPhase } } args0
    rw [hplace] at h2
    exact h2
  cases r2 with
  | error e =>
    have hcv : createVirtualMachine env vm count = (.error e, vm3, count, []) := by
      simp only [createVirtualMachine, h, hplace]
    rw [hcv]
    exact hst3
  | ok args1 =>
    rcases hfolder : vmCreateGetFolderAndRPMoIDs env vm3 args1 with ⟨r3, tr⟩
    cases r3 with
    | error e =>
      have hcv : createVirtualMachine env vm count = (.error e, vm3, count, tr) := by
        simp only [createVirtualMachine, h, hplace, hfolder]
      rw [hcv]
      exact hst3
    | ok args2 =>
      cases hready : vmCreateIsReady env vm3 args2 with
      | error e =>
        have hcv : createVirtualMachine env vm count = (.error e, vm3, count, tr) := by
          simp only [createVirtualMachine, h, hplace, hfolder, hready]
        rw [hcv]
        exact hst3
      | ok u =>
        cases u
        cases hmax : env.maxDeployThreads with
        | none =>
          have hcv : createVirtualMachine env vm count =
              (.error .maxDeployThreadsMissing, vm3, count, tr) := by
            simp only [createVirtualMachine, h, hplace, hfolder, hready, hmax]
          rw [hcv]
          exact hst3
        | some maxT =>
          by_cases hfull : count ≥ maxT
          · have hcv : createVirtualMachine env vm count = (.ok none, vm3, count, tr) := by
              simp only [createVirtualMachine, h, hplace, hfolder, hready, hmax,
                vmCreateConcurrentAllowed]
              rw [if_pos hfull]
              simp
            rw [hcv]
            exact hst3
          · cases hcreate : env.createTask with
            | error e =>
              have hcv : (createVirtualMachine env vm count).2.1 = vm3 := by
                simp only [createVirtualMachine, h, hplace, hfolder, hready, hmax,
                  vmCreateConcurrentAllowed, hcreate]
                rw [if_neg hfull]
                simp
              rw [hcv]
              exact hst3
            | ok moref =>
              exfalso
              have h1 : (createVirtualMachine env vm count).1 = .ok (some moref) := by
                simp only [createVirtualMachine, h, hplace, hfolder, hready, hmax,
                  vmCreateConcurrentAllowed, hcreate]
                rw [if_neg hfull]
                simp
              rcases habort with hh | ⟨e, hh⟩ <;> rw [h1] at hh <;> simp at hh

/-- C7 (amended): for every create sub-step abort (an error, or an admission
denial), the unique infrastructure identifier is left unmodified; an abort
during argument assembly (prerequisite fetch, storage resolution, config-spec
generation, validation) additionally leaves the phase unmodified, while an
abort in or after placement (placement, resource binding, readiness check,
admission acquisition, creation call) leaves the phase set to Creating. -/
theorem create_substep_abort_frame (env : CreateEnv) (vm : VirtualMachine)
    (count : Int) :
    (((createVirtualMachine env vm count).1 = .ok none ∨
        ∃ e, (createVirtualMachine env vm count).1 = .error e) →
      (createVirtualMachine env vm count).2.1.status.uniqueID =
        vm.status.uniqueID) ∧
    (∀ e vm1, vmCreateGetArgs env vm = (.error e, vm1) →
      (createVirtualMachine env vm count).2.1.status.phase = vm.status.phase) ∧
    (∀ args0 vm1, vmCreateGetArgs env vm = (.ok args0, vm1) →
      ((createVirtualMachine env vm count).1 = .ok none ∨
        ∃ e, (createVirtualMachine env vm count).1 = .error e) →
      (createVirtualMachine env vm count).2.1.status.phase = CreatingPhase) := by
  refine ⟨?_, ?_, ?_⟩
  · intro habort
    rcases hargs : vmCreateGetArgs env vm with ⟨r1, vm1⟩
    have huid1 : vm1.status.uniqueID = vm.status.uniqueID := by
      have hh := vmCreateGetArgs_uniqueID env vm
      rw [hargs] at hh
      exact hh
    cases r1 with
    | error e =>
      rw [createVirtualMachine_getargs_error env vm count e vm1 hargs]
      exact huid1
    | ok args0 =>
      have hst := createVirtualMachine_abort_vm env vm count args0 vm1 hargs habort
      rw [hst]
      exact huid1
  · intro e vm1 hargs
    rw [createVirtualMachine_getargs_error env vm count e vm1 hargs]
    have hh := vmCreateGetArgs_phase env vm
    rw [hargs] at hh
    exact hh
  · intro args0 vm1 hargs habort
    have hst := createVirtualMachine_abort_vm env vm count args0 vm1 hargs habort
    rw [hst]

/-- C7 counterexample: with every argument-assembly step succeeding and the
placement call failing, the creation aborts with an error, yet the VM's
status has been modified: its phase changed from "" to "Creating" (and a
condition was marked).  This refutes the claim that aborting sub-steps leave
the status fields unmodified. -/
theorem create_substep_abort_modifies_status :
    (createVirtualMachine exCreateEnvPlacementFail exVM 0).1 =
      .error .placementFailed ∧
    exVM.status.phase = "" ∧
    (createVirtualMachine exCreateEnvPlacementFail exVM 0).2.1.status.phase =
      CreatingPhase ∧
    (createVirtualMachine exCreateEnvPlacementFail exVM 0).2.1.status ≠
      exVM.status := by
  refine ⟨rfl, rfl, rfl, by decide⟩

/-- Witness for the amended C7 at two concrete aborts: a placement abort
keeps the uniqueID and pins the phase to Creating; a prerequisite abort
keeps the phase. -/
theorem create_substep_abort_frame_witness :
    (createVirtualMachine exCreateEnvPlacementFail exVM 0).2.1.status.uniqueID =
      exVM.status.uniqueID ∧
    (createVirtualMachine exCreateEnvPlacementFail exVM 0).2.1.status.phase =
      CreatingPhase ∧
    (createVirtualMachine exCreateEnvPrereqFail exVM 0).2.1.status.phase =
      exVM.status.phase :=
  ⟨(create_substep_abort_frame exCreateEnvPlacementFail exVM 0).1
      (Or.inr ⟨.placementFailed, rfl⟩),
   (create_substep_abort_frame exCreateEnvPlacementFail exVM 0).2.2 _ _ rfl
      (Or.inr ⟨.placementFailed, rfl⟩),
   (create_substep_abort_frame exCreateEnvPrereqFail exVM 0).2.1 .prereqFailed
      exVM rfl⟩

/-- C2: When the admission gate denies a create attempt, the create-or-update
operation returns success (no error): the result is the VM as mutated so far,
an unchanged admission counter, and a trace containing no infrastructure
create call and no reconfigure — the denial is a nil-error "not ready"
deferral, distinguishable from a failure. -/
theorem admission_denied_returns_success (env : CreateEnv) (vm : VirtualMachine)
    (count : Int) (args0 args1 args2 : VMCreateArgs) (vm1 vm3 : VirtualMachine)
    (tr : List VcEffect) (maxT : Int)
    (hclient : env.vcClientOK = true)
    (hgetvm : env.getVMResult = .ok none)
    (hargs : vmCreateGetArgs env vm = (.ok args0, vm1))
    (hplace : vmCreateDoPlacement env
      { vm1 with status := { vm1.status with phase := CreatingPhase } } args0 =
      (.ok args1, vm3))
    (hfolder : vmCreateGetFolderAndRPMoIDs env vm3 args1 = (.ok args2, tr))
    (hready : vmCreateIsReady env vm3 args2 = .ok ())
    (hmax : env.maxDeployThreads = some maxT)
    (hfull : count ≥ maxT) :
    CreateOrUpdateVirtualMachine env vm count = (.ok (), vm3, count, tr) ∧
    VcEffect.createVMTask ∉ tr ∧
    VcEffect.reconfigureTask ∉ tr := by
  have hcv : createVirtualMachine env vm count = (.ok none, vm3, count, tr) := by
    simp only [createVirtualMachine, hargs, hplace, hfolder, hready, hmax,
      vmCreateConcurrentAllowed]
    rw [if_pos hfull]
    simp
  have htr : (vmCreateGetFolderAndRPMoIDs env vm3 args1).2 = tr :=
    congrArg Prod.snd hfolder
  refine ⟨?_, ?_, ?_⟩
  · simp [CreateOrUpdateVirtualMachine, hclient, hgetvm, hcv]
  · intro hmem
    rw [← htr] at hmem
    rcases folderRP_trace_shape env vm3 args1 _ hmem with ⟨z, m, hx⟩ | ⟨m, hx⟩ |
      ⟨q, m, hx⟩ | ⟨q, m, hx⟩ <;> exact absurd hx (by simp)
  · intro hmem
    rw [← htr] at hmem
    rcases folderRP_trace_shape env vm3 args1 _ hmem with ⟨z, m, hx⟩ | ⟨m, hx⟩ |
      ⟨q, m, hx⟩ | ⟨q, m, hx⟩ <;> exact absurd hx (by simp)

/-- Witness for C2: a full admission gate (limit 0) on the healthy
environment returns success with no create call. -/
theorem admission_denied_returns_success_witness :
    CreateOrUpdateVirtualMachine { exCreateEnv with maxDeployThreads := some 0 }
      exVM 0 =
      (.ok (),
        { exVM with status :=
          { phase := CreatingPhase, uniqueID := "", condsTrue := [prereqReadyCondType] } },
        0, [.nsFolderFetch "ns-1"]) ∧
    VcEffect.createVMTask ∉ [VcEffect.nsFolderFetch "ns-1"] ∧
    VcEffect.reconfigureTask ∉ [VcEffect.nsFolderFetch "ns-1"] :=
  admission_denied_returns_success _ exVM 0 _ _ _ _ _ _ 0
    rfl rfl rfl rfl rfl rfl rfl (le_refl 0)

/-- C3: Cold-migration abort discipline.  (1) If the destination
connectivity check fails, the export, relocate and import steps are not
executed and the source VM is neither annotated nor deleted (the cluster is
returned unchanged).  (2) If the export's annotation update fails, relocate
and import are not executed.  (3) If the relocate fails after a successful
export, the import is not executed and no compensating rollback happens:
the source VM stays annotated-then-deleted.  Every failure surfaces as an
error. -/
theorem cold_migration_abort (c : Cluster) (f : Faults) (op : Operation)
    (vm : VirtualMachine)
    (hget : f.vmGetTransient = false)
    (hfound : findVM c op.ns op.spec.entityName = some vm) :
    (f.connFails = true →
      reconcileColdMigration c f op = (.error .connFailed, c, [.connCheck])) ∧
    (f.connFails = false → f.updateFails = true →
      reconcileColdMigration c f op =
        (.error .updateFailed, c, [.connCheck, .updateVMCall vm.name])) ∧
    (f.connFails = false → f.updateFails = false → f.deleteFails = false →
      f.relocateFails = true →
      reconcileColdMigration c f op =
        (.error .relocateFailed,
          deleteVMIn (updateVMIn c (vm.setAnn exportAnnKey "true")) vm.ns vm.name,
          [.connCheck, .updateVMCall vm.name, .deleteVMCall vm.name,
            .relocateCall op.spec.entityName])) := by
  refine ⟨?_, ?_, ?_⟩
  · intro hconn
    simp [reconcileColdMigration, testTargetClusterConnection, k8sGetVM,
      hget, hfound, hconn]
  · intro hconn hupd
    simp [reconcileColdMigration, testTargetClusterConnection, exportVM, k8sGetVM,
      hget, hfound, hconn, hupd, VirtualMachine.setAnn]
  · intro hconn hupd hdel hrel
    simp [reconcileColdMigration, testTargetClusterConnection, exportVM, k8sGetVM,
      hget, hfound, hconn, hupd, hdel, hrel, VirtualMachine.setAnn]

/-- Witness for C3: the three abort scenarios on the example cluster. -/
theorem cold_migration_abort_witness :
    (reconcileColdMigration exCluster { noFaults with connFails := true }
        (exOp .ColdMigration) = (.error .connFailed, exCluster, [.connCheck])) ∧
    (reconcileColdMigration exCluster { noFaults with updateFails := true }
        (exOp .ColdMigration) =
      (.error .updateFailed, exCluster, [.connCheck, .updateVMCall exVM.name])) ∧
    (reconcileColdMigration exCluster { noFaults with relocateFails := true }
        (exOp .ColdMigration) =
      (.error .relocateFailed,
        deleteVMIn (updateVMIn exCluster (exVM.setAnn exportAnnKey "true"))
          exVM.ns exVM.name,
        [.connCheck, .updateVMCall exVM.name, .deleteVMCall exVM.name,
          .relocateCall (exOp .ColdMigration).spec.entityName])) :=
  ⟨(cold_migration_abort exCluster _ (exOp .ColdMigration) exVM rfl rfl).1 rfl,
   (cold_migration_abort exCluster _ (exOp .ColdMigration) exVM rfl rfl).2.1 rfl rfl,
   (cold_migration_abort exCluster _ (exOp .ColdMigration) exVM rfl rfl).2.2
     rfl rfl rfl rfl⟩

/-- C10: Relocating a VM whose infrastructure instance does not exist
(the lookup succeeds but finds no instance) returns success without issuing
any relocate call or resolving any destination entities — a silent no-op,
not an error. -/
theorem relocate_absent_instance_noop (env : RelocEnv) (srs : RelocateSpec)
    (hclient : env.vcClientOK = true) (hvm : env.vmLookup = .ok none) :
    RelocateVirtualMachine env srs = (.ok (), []) := by
  simp [RelocateVirtualMachine, hclient, hvm]

/-- Witness for C10 at a concrete environment. -/
theorem relocate_absent_instance_noop_witness :
    RelocateVirtualMachine { exRelocEnv with vmLookup := .ok none }
      (exOpSpec .ColdMigration).relocateSpec = (.ok (), []) :=
  relocate_absent_instance_noop _ _ rfl rfl

/-- C5 (code bug evidence): on a relocate of an existing one-NIC VM with
`vmNetworkName = "dst-net"`, the submitted relocate spec carries exactly one
device edit, but its backing device name is the hardcoded constant
"primary-vds-2", not the destination network named in the request — the
network resolved from `vmNetworkName` is fetched and then ignored. -/
theorem relocate_backing_hardcoded :
    RelocateVirtualMachine exRelocEnv (exOpSpec .ColdMigration).relocateSpec =
      (.ok (),
        [.findHost "10.1.1.1", .findPool "dst-rp", .findDatastore "dst-ds",
         .findNetwork "dst-net", .getDevices, .findFolder "dst-folder",
         .relocateTask
           { folder := some "folder-9"
             datastore := some "ds-9"
             pool := some "pool-9"
             host := some "host-9"
             deviceChange :=
               [{ operation := .edit, device := .vmxnet3 4000 "primary-vds-2" }] }]) ∧
    dstVMNetworkName ≠ (exOpSpec .ColdMigration).relocateSpec.vmNetworkName := by
  exact ⟨rfl, by decide⟩

end VMOp
